import Mathlib

/-!
Verification of the niri-workspace-applet core: the workspace data model,
the reconciliation logic of NiriWorkspaceApplet.update and init
(src/app.rs), the event-stream worker and the NiriSocketExt command
helpers (src/niri.rs), and the JSON wire codec used on the socket.
-/

namespace Niri

/-- The fields of the niri_ipc Workspace record that this client reads
(id, idx, name, is_focused); the remaining wire fields are never inspected
by the applet and are omitted from the embedding. -/
structure Workspace where
  id : Nat
  idx : Nat
  name : Option String
  is_focused : Bool
  deriving Repr, DecidableEq

/-- Outward updates sent from the worker to the applet
(enum WorkspaceUpdate in src/niri.rs). -/
inductive WorkspaceUpdate where
  | WorkspaceChanged (workspaces : List Workspace)
  | FocusChanged (id : Nat)
  deriving Repr, DecidableEq

/-- The niri_ipc events as matched by the worker loop: the two variants it
handles are kept structurally; every remaining variant of the external
schema falls into the catch-all arm of the worker match, so those are
collapsed into the `other` constructor carrying only their variant tag. -/
inductive Event where
  | WorkspacesChanged (workspaces : List Workspace)
  | WorkspaceActivated (id : Nat) (focused : Bool)
  | other (tag : String)
  deriving Repr, DecidableEq

/-- Display ordering used by src/app.rs: comparison of the idx fields. -/
def byIdx (a b : Workspace) : Prop := a.idx ≤ b.idx

instance : DecidableRel byIdx := fun a b => Nat.decLe a.idx b.idx

instance : IsTotal Workspace byIdx := ⟨fun a b => Nat.le_total a.idx b.idx⟩

instance : IsTrans Workspace byIdx := ⟨fun _ _ _ => Nat.le_trans⟩

/-- The sort in src/app.rs: workspaces.sort_by(|w1, w2| w1.idx.cmp(&w2.idx)).
Rust sort_by is a stable comparison sort, embedded as stable insertion
sort on the idx field. -/
def sortByIdx (ws : List Workspace) : List Workspace :=
  ws.insertionSort byIdx

/-- The reconciled model state of the applet (struct NiriWorkspaceApplet in
src/app.rs): the workspace snapshot and the focused workspace id. The Core
and Socket handles of the Rust struct are presentation and transport glue
with no bearing on reconciliation and are omitted. -/
structure NiriWorkspaceApplet where
  workspaces : List Workspace
  focused : Nat
  deriving Repr, DecidableEq

/-- The Message::WorkspaceUpdated branch of NiriWorkspaceApplet.update
(src/app.rs lines 161-171): WorkspaceChanged replaces the snapshot with the
incoming list and sorts it by idx; FocusChanged stores the id in the
focused field and recomputes every is_focused flag as (w.id == id). -/
def NiriWorkspaceApplet.applyUpdate (m : NiriWorkspaceApplet) :
    WorkspaceUpdate → NiriWorkspaceApplet
  | .WorkspaceChanged ws => { m with workspaces := sortByIdx ws }
  | .FocusChanged id =>
      { m with
        focused := id
        workspaces := m.workspaces.map fun w => { w with is_focused := w.id == id } }

/-- NiriWorkspaceApplet.init (src/app.rs lines 48-60): the initial model
holds the get_workspace result sorted by idx, and focused is 0. -/
def initApplet (ws : List Workspace) : NiriWorkspaceApplet :=
  { workspaces := sortByIdx ws, focused := 0 }

/-- One iteration of the worker event loop (src/niri.rs lines 130-153): the
outward update sent over the channel for one decoded event, if any.
WorkspacesChanged forwards its list unchanged; WorkspaceActivated is
forwarded as FocusChanged only when focused is true; every other variant
is dropped by the catch-all arm. -/
def workerStep : Event → Option WorkspaceUpdate
  | .WorkspacesChanged ws => some (.WorkspaceChanged ws)
  | .WorkspaceActivated id focused =>
      if focused then some (.FocusChanged id) else none
  | .other _ => none

/-- The sequence of outward updates the worker pushes into the delivery
channel for a sequence of decoded events. The iced channel is a bounded
single-producer single-consumer FIFO, embedded as a list in send order. -/
def workerUpdates (es : List Event) : List WorkspaceUpdate :=
  es.filterMap workerStep

/-- Processing one event end to end: the update produced by the worker, if
any, applied to the applet model. -/
def stepEvent (m : NiriWorkspaceApplet) (e : Event) : NiriWorkspaceApplet :=
  match workerStep e with
  | some u => m.applyUpdate u
  | none => m

/-- The niri_ipc Response payloads this client inspects: Handled in the
worker, Workspaces in get_workspace; every other payload variant of the
external schema is collapsed into `otherResponse` with its tag. -/
inductive Response where
  | Handled
  | Workspaces (workspaces : List Workspace)
  | otherResponse (tag : String)
  deriving Repr, DecidableEq

/-- niri_ipc Reply is Result of Response or an error message string. -/
abbrev Reply := Except String Response

/-- The possible outcomes of the start of one worker session, up to the
point where the subscribe acknowledgement has been read
(src/niri.rs lines 122-129): the connect call fails; reading or decoding
the acknowledgement reply fails (event_stream returns Err); or a Reply is
decoded. -/
inductive StartOutcome where
  | connectFailed
  | ackReadFailed
  | ackReply (r : Reply)

/-- What the session does at start. -/
inductive SessionStart where
  | panicked (msg : String)
  | terminated
  | streaming
  deriving Repr, DecidableEq

/-- Session start as written in the worker (src/niri.rs lines 122-129):
connect().await.expect(...) panics on a failed connect;
event_stream().await.expect("") panics on a read or decode failure of the
acknowledgement; a decoded reply enters the read loop only when it matches
Ok(Response::Handled), and otherwise the stream future simply ends. -/
def startSession : StartOutcome → SessionStart
  | .connectFailed => .panicked "Event loop :failed to connect to niri socket"
  | .ackReadFailed => .panicked ""
  | .ackReply (.ok .Handled) => .streaming
  | .ackReply _ => .terminated

/-- The outcome of Socket::send inside get_workspace: either the transport
or codec layer fails (connect, write, read, decode), or a Reply is
decoded. -/
inductive SendOutcome where
  | sendFailed (e : String)
  | replied (r : Reply)

/-- What a get_workspace call does. -/
inductive GetResult where
  | returned (workspaces : List Workspace)
  | panicked
  deriving Repr, DecidableEq

/-- NiriSocketExt::get_workspace (src/niri.rs lines 53-65): a send failure
is logged and the else branch returns the empty vector; a decoded error
reply also takes the else branch; a decoded Ok reply with a Workspaces
payload is returned; a decoded Ok reply with any other payload hits the
unreachable arm of the match and panics. -/
def get_workspace : SendOutcome → GetResult
  | .sendFailed _ => .returned []
  | .replied (.ok (.Workspaces w)) => .returned w
  | .replied (.ok _) => .panicked
  | .replied (.error _) => .returned []

/-- The JSON values carried on one wire line (the socket protocol is one
JSON document per newline-terminated line). -/
inductive Json where
  | null
  | bool (b : Bool)
  | num (n : Nat)
  | str (s : String)
  | arr (elems : List Json)
  | obj (fields : List (String × Json))

/-- Decoding one workspace record from a JSON object, for the fields this
client reads; serde fills the Rust struct from an object keyed by field
name, with an optional name encoded as null or a string. -/
def decodeWorkspace (j : Json) : Except String Workspace :=
  match j with
  | .obj fields =>
    match List.lookup "id" fields, List.lookup "idx" fields,
        List.lookup "name" fields, List.lookup "is_focused" fields with
    | some (.num id), some (.num idx), some nameJson, some (.bool f) =>
      match nameJson with
      | .null => .ok ⟨id, idx, none, f⟩
      | .str s => .ok ⟨id, idx, some s, f⟩
      | _ => .error "invalid workspace name"
    | _, _, _, _ => .error "invalid workspace object"
  | _ => .error "workspace is not an object"

/-- Decoding a JSON array of workspace records, failing on the first bad
element. -/
def decodeWorkspaceList : List Json → Except String (List Workspace)
  | [] => .ok []
  | j :: rest => do
    let w ← decodeWorkspace j
    let ws ← decodeWorkspaceList rest
    .ok (w :: ws)

/-- The variant tags of the external niri_ipc Event schema other than the
two this client handles; the derived serde decoder accepts exactly the
closed set of schema variants and nothing else. -/
def otherEventTags : List String :=
  ["WorkspaceUrgencyChanged", "WorkspaceActiveWindowChanged",
   "WindowsChanged", "WindowOpenedOrChanged", "WindowClosed",
   "WindowFocusChanged", "WindowUrgencyChanged", "KeyboardLayoutsChanged",
   "KeyboardLayoutSwitched", "OverviewOpenedOrClosed", "ConfigLoaded"]

/-- serde_json from_str for niri_ipc Event as called in
NiriClient::read_event (src/niri.rs lines 104-112), modelled as a
three-way outcome. The external enum is externally tagged and closed: the
derived deserializer first dispatches on the single key of the line
object, rejecting a tag outside the schema with an unknown-variant error
(serde has no catch-all for externally tagged enums), and then runs the
payload deserializer of that variant. The payload deserializers of the
two variants the worker handles are embedded in full; those of the eleven
variants this client never inspects, including their per-field
validation, live in the external crate, so for those tags the decode
result is left undetermined (none) rather than modelled, and no theorem
relies on it. -/
def decodeEvent (j : Json) : Option (Except String Event) :=
  match j with
  | .obj [(tag, payload)] =>
    if tag = "WorkspacesChanged" then
      some (match payload with
      | .obj fields =>
        match List.lookup "workspaces" fields with
        | some (.arr ws) => do
            let l ← decodeWorkspaceList ws
            .ok (.WorkspacesChanged l)
        | _ => .error "missing workspaces field"
      | _ => .error "invalid WorkspacesChanged payload")
    else if tag = "WorkspaceActivated" then
      some (match payload with
      | .obj fields =>
        match List.lookup "id" fields, List.lookup "focused" fields with
        | some (.num id), some (.bool f) => .ok (.WorkspaceActivated id f)
        | _, _ => .error "invalid WorkspaceActivated payload"
      | _ => .error "invalid WorkspaceActivated payload")
    else if tag ∈ otherEventTags then
      none
    else
      some (.error ("unknown variant " ++ tag))
  | _ => some (.error "event is not a single-key object")

/-- The workspace reference shape this client sends: niri_ipc
WorkspaceReferenceArg, always constructed as Id(id) in src/niri.rs. -/
inductive WorkspaceReferenceArg where
  | Id (id : Nat)
  deriving Repr, DecidableEq

/-- The niri_ipc Action variants this client sends
(src/niri.rs lines 19-51). -/
inductive Action where
  | FocusWorkspace (reference : WorkspaceReferenceArg)
  | FocusWorkspaceUp
  | FocusWorkspaceDown
  deriving Repr, DecidableEq

/-- The niri_ipc Request variants this client sends: EventStream from
NiriClient::event_stream, Workspaces from get_workspace, and the three
actions. -/
inductive Request where
  | EventStream
  | Workspaces
  | Action (action : Action)
  deriving Repr, DecidableEq

/-- serde_json serialization of the Action variants as sent by this
client: a struct variant is a single-key object keyed by the variant tag;
the field-free struct variants carry an empty object; the reference field
holds the externally tagged WorkspaceReferenceArg. -/
def encodeAction : Action → Json
  | .FocusWorkspace (.Id id) =>
      .obj [("FocusWorkspace", .obj [("reference", .obj [("Id", .num id)])])]
  | .FocusWorkspaceUp => .obj [("FocusWorkspaceUp", .obj [])]
  | .FocusWorkspaceDown => .obj [("FocusWorkspaceDown", .obj [])]

/-- serde_json serialization of Request as written to the socket
(serde_json::to_string in src/niri.rs line 89, and Socket::send): unit
variants encode as a bare string tag, the Action variant as a single-key
object. -/
def encodeRequest : Request → Json
  | .EventStream => .str "EventStream"
  | .Workspaces => .str "Workspaces"
  | .Action a => .obj [("Action", encodeAction a)]

/-- The schema-compatible decoder for the Action shapes this client
sends, with externally tagged enum semantics. -/
def decodeAction (j : Json) : Except String Action :=
  match j with
  | .obj [(tag, payload)] =>
    if tag = "FocusWorkspace" then
      match payload with
      | .obj [("reference", .obj [("Id", .num id)])] =>
          .ok (.FocusWorkspace (.Id id))
      | _ => .error "invalid FocusWorkspace payload"
    else if tag = "FocusWorkspaceUp" then .ok .FocusWorkspaceUp
    else if tag = "FocusWorkspaceDown" then .ok .FocusWorkspaceDown
    else .error "unknown action"
  | _ => .error "action is not a single-key object"

/-- The schema-compatible decoder for the Request shapes this client
sends. -/
def decodeRequest (j : Json) : Except String Request :=
  match j with
  | .str "EventStream" => .ok .EventStream
  | .str "Workspaces" => .ok .Workspaces
  | .obj [("Action", payload)] => do
      let a ← decodeAction payload
      .ok (.Action a)
  | _ => .error "unknown request"

/-- Sample workspace with id 1 at display index 0, unfocused. -/
def wsIdx0 : Workspace := ⟨1, 0, none, false⟩

/-- Sample workspace with id 2 at display index 1, unfocused. -/
def wsIdx1 : Workspace := ⟨2, 1, some "web", false⟩

/-- Sample workspace with id 5 at display index 0, arriving focused. -/
def wsFoc : Workspace := ⟨5, 0, none, true⟩

/-- Sample applet model holding wsIdx0 and wsIdx1, focused field 0. -/
def mW : NiriWorkspaceApplet := ⟨[wsIdx0, wsIdx1], 0⟩

/-- C7: a WorkspaceActivated event with focused = false produces no
outward update, and processing it leaves the applet model, in particular
its snapshot and focused workspace id, unchanged. -/
theorem activated_unfocused_no_update (id : Nat) (m : NiriWorkspaceApplet) :
    workerStep (Event.WorkspaceActivated id false) = none ∧
    stepEvent m (Event.WorkspaceActivated id false) = m :=
  ⟨rfl, rfl⟩

/-- C10: applying a WorkspaceChanged update never touches the focused
field of the model, whatever the prior value and whatever the incoming
list, including lists with no workspace of that id. -/
theorem workspaceChanged_preserves_focused (m : NiriWorkspaceApplet)
    (l : List Workspace) :
    (m.applyUpdate (WorkspaceUpdate.WorkspaceChanged l)).focused = m.focused :=
  rfl

/-- C9: encoding any Request variant this client sends and decoding it
with the schema-compatible decoder returns the original request. -/
theorem request_roundtrip (r : Request) :
    decodeRequest (encodeRequest r) = Except.ok r := by
  cases r with
  | EventStream => rfl
  | Workspaces => rfl
  | Action a =>
    cases a with
    | FocusWorkspace ref => cases ref with | Id id => rfl
    | FocusWorkspaceUp => rfl
    | FocusWorkspaceDown => rfl

/-- C4 counterexample: a failed connect, and a failed read or decode of
the subscribe acknowledgement, both panic the worker task through expect
instead of ending the session without a panic. -/
theorem connect_or_ack_failure_panics :
    startSession StartOutcome.connectFailed =
      SessionStart.panicked "Event loop :failed to connect to niri socket" ∧
    startSession StartOutcome.ackReadFailed = SessionStart.panicked "" :=
  ⟨rfl, rfl⟩

/-- C4 amended: when the acknowledgement reply decodes but is not
Ok(Handled), the session instance ends without a panic: the worker
future skips the read loop and completes. -/
theorem bad_ack_reply_terminates (r : Reply)
    (h : r ≠ Except.ok Response.Handled) :
    startSession (StartOutcome.ackReply r) = SessionStart.terminated := by
  cases r with
  | error e => rfl
  | ok resp =>
    cases resp with
    | Handled => exact absurd rfl h
    | Workspaces ws => rfl
    | otherResponse t => rfl

/-- Witness for the amended C4 theorem at a concrete error reply. -/
theorem bad_ack_reply_terminates_witness :
    (Except.error "connection reset" : Reply) ≠ Except.ok Response.Handled ∧
    startSession (StartOutcome.ackReply (Except.error "connection reset")) =
      SessionStart.terminated :=
  ⟨(fun h => nomatch h),
   bad_ack_reply_terminates (Except.error "connection reset") (fun h => nomatch h)⟩

/-- C5 counterexample: a successfully decoded Ok reply whose payload is
not a workspace list hits the unreachable arm of get_workspace and
panics instead of returning the empty sequence. -/
theorem unexpected_ok_reply_panics :
    get_workspace (SendOutcome.replied (Except.ok Response.Handled)) =
      GetResult.panicked :=
  rfl

/-- C5 amended: get_workspace returns the empty sequence on any transport
or codec failure and on a decoded error reply, and returns the payload of
a decoded Ok(Workspaces) reply; only an Ok reply of a different payload
shape panics. -/
theorem get_workspace_degrades_to_empty (e msg : String)
    (ws : List Workspace) :
    get_workspace (SendOutcome.sendFailed e) = GetResult.returned [] ∧
    get_workspace (SendOutcome.replied (Except.error msg)) =
      GetResult.returned [] ∧
    get_workspace (SendOutcome.replied (Except.ok (Response.Workspaces ws))) =
      GetResult.returned ws :=
  ⟨rfl, rfl, rfl⟩

/-- C6 counterexample: a line whose variant tag lies outside the closed
event schema is rejected by the tag dispatch of the derived deserializer,
whatever its payload, instead of decoding into an ignored case; the
resulting Err from read_event ends the worker read loop. -/
theorem unknown_event_tag_decode_fails :
    decodeEvent (Json.obj [("WorkspacesRenumbered", Json.obj [])]) =
      some (Except.error "unknown variant WorkspacesRenumbered") :=
  rfl

/-- C6 amended: an event that decodes to a schema variant the client does
not handle is dropped by the catch-all arm of the worker match with no
state change and no outward update. -/
theorem ignored_event_no_effect (t : String) (m : NiriWorkspaceApplet) :
    workerStep (Event.other t) = none ∧ stepEvent m (Event.other t) = m :=
  ⟨rfl, rfl⟩

/-- C2 counterexample: for an incoming list that is not sorted by index,
the worker emits WorkspaceChanged carrying the list exactly as received,
which differs from the list sorted ascending by index. -/
theorem worker_emits_unsorted_list :
    workerUpdates [Event.WorkspacesChanged [wsIdx1, wsIdx0]] =
      [WorkspaceUpdate.WorkspaceChanged [wsIdx1, wsIdx0]] ∧
    sortByIdx [wsIdx1, wsIdx0] = [wsIdx0, wsIdx1] ∧
    [wsIdx1, wsIdx0] ≠ [wsIdx0, wsIdx1] := by
  refine ⟨rfl, by decide, by decide⟩

/-- C3 counterexample: applying a WorkspaceChanged update whose list
carries a focused workspace leaves the focused field of the model at its
old value, so the Focused Workspace Id (0) differs from the id of the
unique workspace whose is_focused is true (5). -/
theorem workspaceChanged_desyncs_focused_id :
    (((initApplet []).applyUpdate
        (WorkspaceUpdate.WorkspaceChanged [wsFoc])).workspaces.filter
          (fun w => w.is_focused)).map Workspace.id = [5] ∧
    ((initApplet []).applyUpdate
        (WorkspaceUpdate.WorkspaceChanged [wsFoc])).focused = 0 := by
  exact ⟨by decide, rfl⟩

/-- Counting the focus flags that a FocusChanged(id) application writes
equals counting the occurrences of id among the workspace ids. -/
lemma countP_focusedMap (ws : List Workspace) (id : Nat) :
    (ws.map fun w => { w with is_focused := w.id == id }).countP
        (fun w => w.is_focused) =
      List.count id (ws.map Workspace.id) := by
  have h1 : (ws.map fun w => { w with is_focused := w.id == id }).countP
      (fun w => w.is_focused) = ws.countP (fun w => w.id == id) := by
    rw [List.countP_map]
    rfl
  have h2 : List.count id (ws.map Workspace.id) =
      ws.countP (fun w => w.id == id) := by
    show (ws.map Workspace.id).countP (fun x => x == id) = _
    rw [List.countP_map]
    rfl
  rw [h1, h2]

/-- C1: a WorkspaceActivated event with focused = true yields the
FocusChanged(id) update, and applying it to a snapshot with
pairwise-distinct ids focuses exactly the workspace with that id when it
is present, and leaves every workspace unfocused when it is absent. -/
theorem focusChanged_unique_focus (m : NiriWorkspaceApplet) (id : Nat)
    (hnd : (m.workspaces.map Workspace.id).Nodup) :
    workerStep (Event.WorkspaceActivated id true) =
      some (WorkspaceUpdate.FocusChanged id) ∧
    (id ∈ m.workspaces.map Workspace.id →
      (m.applyUpdate (WorkspaceUpdate.FocusChanged id)).workspaces.countP
          (fun w => w.is_focused) = 1 ∧
      ∀ w ∈ (m.applyUpdate (WorkspaceUpdate.FocusChanged id)).workspaces,
        (w.is_focused = true → w.id = id) ∧
        (w.id ≠ id → w.is_focused = false)) ∧
    (id ∉ m.workspaces.map Workspace.id →
      ∀ w ∈ (m.applyUpdate (WorkspaceUpdate.FocusChanged id)).workspaces,
        w.is_focused = false) := by
  have hws : (m.applyUpdate (WorkspaceUpdate.FocusChanged id)).workspaces
      = m.workspaces.map (fun w => { w with is_focused := w.id == id }) := rfl
  refine ⟨rfl, ?_, ?_⟩
  · intro hmem
    constructor
    · rw [hws, countP_focusedMap]
      exact List.count_eq_one_of_mem hnd hmem
    · intro w hw
      rw [hws] at hw
      rcases List.mem_map.mp hw with ⟨v, hv, rfl⟩
      constructor
      · intro hf
        have hb : (v.id == id) = true := hf
        exact eq_of_beq hb
      · intro hne
        show (v.id == id) = false
        exact beq_eq_false_iff_ne.mpr hne
  · intro hmem w hw
    rw [hws] at hw
    rcases List.mem_map.mp hw with ⟨v, hv, rfl⟩
    have hne : v.id ≠ id := fun h => hmem (List.mem_map.mpr ⟨v, hv, h⟩)
    show (v.id == id) = false
    exact beq_eq_false_iff_ne.mpr hne

/-- Witness for the C1 theorem on a concrete two-workspace model, one
case with the id present (2) evaluated through the conclusion. -/
theorem focusChanged_unique_focus_witness :
    (mW.workspaces.map Workspace.id).Nodup ∧
    (workerStep (Event.WorkspaceActivated 2 true) =
      some (WorkspaceUpdate.FocusChanged 2) ∧
    (2 ∈ mW.workspaces.map Workspace.id →
      (mW.applyUpdate (WorkspaceUpdate.FocusChanged 2)).workspaces.countP
          (fun w => w.is_focused) = 1 ∧
      ∀ w ∈ (mW.applyUpdate (WorkspaceUpdate.FocusChanged 2)).workspaces,
        (w.is_focused = true → w.id = 2) ∧
        (w.id ≠ 2 → w.is_focused = false)) ∧
    (2 ∉ mW.workspaces.map Workspace.id →
      ∀ w ∈ (mW.applyUpdate (WorkspaceUpdate.FocusChanged 2)).workspaces,
        w.is_focused = false)) :=
  ⟨by decide, focusChanged_unique_focus mW 2 (by decide)⟩

/-- The invariant of the reconciled model: workspace ids are
pairwise-distinct and at most one workspace is focused. -/
def Inv (m : NiriWorkspaceApplet) : Prop :=
  (m.workspaces.map Workspace.id).Nodup ∧
  m.workspaces.countP (fun w => w.is_focused) ≤ 1

instance (m : NiriWorkspaceApplet) : Decidable (Inv m) :=
  inferInstanceAs (Decidable ((m.workspaces.map Workspace.id).Nodup ∧
    m.workspaces.countP (fun w => w.is_focused) ≤ 1))

/-- Well-formedness of one incoming update: a WorkspaceChanged list must
itself carry pairwise-distinct ids and at most one focused flag, which is
what the niri server sends; FocusChanged carries no list. -/
def okUpdate : WorkspaceUpdate → Prop
  | .WorkspaceChanged l =>
      (l.map Workspace.id).Nodup ∧ l.countP (fun w => w.is_focused) ≤ 1
  | .FocusChanged _ => True

instance : DecidablePred okUpdate := fun u =>
  match u with
  | .WorkspaceChanged l =>
      inferInstanceAs (Decidable ((l.map Workspace.id).Nodup ∧
        l.countP (fun w => w.is_focused) ≤ 1))
  | .FocusChanged _ => inferInstanceAs (Decidable True)

/-- One update application preserves the model invariant. -/
lemma applyUpdate_inv (m : NiriWorkspaceApplet) (u : WorkspaceUpdate)
    (hu : okUpdate u) (hm : Inv m) : Inv (m.applyUpdate u) := by
  cases u with
  | WorkspaceChanged l =>
    obtain ⟨hln, hlc⟩ := hu
    have hperm : (sortByIdx l).Perm l := List.perm_insertionSort byIdx l
    constructor
    · exact ((hperm.map Workspace.id).nodup_iff).mpr hln
    · show (sortByIdx l).countP (fun w => w.is_focused) ≤ 1
      rw [hperm.countP_eq]
      exact hlc
  | FocusChanged id =>
    obtain ⟨hmn, _⟩ := hm
    constructor
    · show ((m.workspaces.map fun w =>
          { w with is_focused := w.id == id }).map Workspace.id).Nodup
      rw [List.map_map]
      exact hmn
    · show (m.workspaces.map fun w =>
          { w with is_focused := w.id == id }).countP
            (fun w => w.is_focused) ≤ 1
      rw [countP_focusedMap]
      exact List.nodup_iff_count_le_one.mp hmn id

/-- Folding well-formed updates over a model satisfying the invariant
keeps the invariant. -/
lemma foldl_inv : ∀ (us : List WorkspaceUpdate) (m : NiriWorkspaceApplet),
    Inv m → (∀ u ∈ us, okUpdate u) →
    Inv (us.foldl NiriWorkspaceApplet.applyUpdate m)
  | [], _, hm, _ => hm
  | u :: t, m, hm, hus =>
      foldl_inv t (m.applyUpdate u)
        (applyUpdate_inv m u (hus u (List.mem_cons_self u t)) hm)
        (fun v hv => hus v (List.mem_cons_of_mem u hv))

/-- C3 amended: starting from any model satisfying the invariant and
applying any sequence of updates whose WorkspaceChanged lists carry
pairwise-distinct ids and at most one focused flag, at most one workspace
in the snapshot has is_focused = true; the Focused Workspace Id field is
written only by FocusChanged and is not kept in sync by WorkspaceChanged
applications. -/
theorem applyUpdates_at_most_one_focused (m : NiriWorkspaceApplet)
    (us : List WorkspaceUpdate) (hm : Inv m) (hus : ∀ u ∈ us, okUpdate u) :
    (us.foldl NiriWorkspaceApplet.applyUpdate m).workspaces.countP
      (fun w => w.is_focused) ≤ 1 :=
  (foldl_inv us m hm hus).2

/-- Witness for the amended C3 theorem on a concrete initial model and a
concrete update sequence. -/
theorem applyUpdates_at_most_one_focused_witness :
    Inv (initApplet [wsIdx0, wsIdx1]) ∧
    (∀ u ∈ [WorkspaceUpdate.WorkspaceChanged [wsFoc],
            WorkspaceUpdate.FocusChanged 2], okUpdate u) ∧
    ([WorkspaceUpdate.WorkspaceChanged [wsFoc],
      WorkspaceUpdate.FocusChanged 2].foldl
        NiriWorkspaceApplet.applyUpdate
        (initApplet [wsIdx0, wsIdx1])).workspaces.countP
      (fun w => w.is_focused) ≤ 1 :=
  ⟨by decide, by decide,
   applyUpdates_at_most_one_focused (initApplet [wsIdx0, wsIdx1])
     [WorkspaceUpdate.WorkspaceChanged [wsFoc],
      WorkspaceUpdate.FocusChanged 2] (by decide) (by decide)⟩

/-- The worker forwards a run of WorkspacesChanged events as the same
lists, unchanged and in order. -/
lemma workerUpdates_map_wc : ∀ (ls : List (List Workspace)),
    workerUpdates (ls.map Event.WorkspacesChanged)
      = ls.map WorkspaceUpdate.WorkspaceChanged
  | [] => rfl
  | l :: t => by
      show WorkspaceUpdate.WorkspaceChanged l
          :: workerUpdates (t.map Event.WorkspacesChanged) = _
      rw [workerUpdates_map_wc t]
      rfl

/-- Folding a run of WorkspaceChanged applications leaves the snapshot of
the most recent list, sorted. -/
lemma foldl_wc : ∀ (ls : List (List Workspace)) (hne : ls ≠ [])
    (m : NiriWorkspaceApplet),
    ((ls.map WorkspaceUpdate.WorkspaceChanged).foldl
        NiriWorkspaceApplet.applyUpdate m).workspaces
      = sortByIdx (ls.getLast hne)
  | [_], _, _ => rfl
  | l :: r :: t, _, m =>
      foldl_wc (r :: t) (fun h => nomatch h)
        (m.applyUpdate (WorkspaceUpdate.WorkspaceChanged l))

/-- C2 amended: for every nonempty run of WorkspacesChanged events, the
worker emits WorkspaceChanged updates carrying each list exactly as
received and in order, and after the consumer applies them the snapshot
is the most recent list sorted ascending by idx: it is sorted, it is a
permutation of that list, and repeating the last application changes
nothing. The emitted updates carry the lists unsorted; sorting happens
only on application to the model. -/
theorem workspacesChanged_replaces_and_sorts (m : NiriWorkspaceApplet)
    (ls : List (List Workspace)) (hne : ls ≠ []) :
    workerUpdates (ls.map Event.WorkspacesChanged)
        = ls.map WorkspaceUpdate.WorkspaceChanged ∧
    ((ls.map WorkspaceUpdate.WorkspaceChanged).foldl
        NiriWorkspaceApplet.applyUpdate m).workspaces
      = sortByIdx (ls.getLast hne) ∧
    List.Sorted byIdx (sortByIdx (ls.getLast hne)) ∧
    (sortByIdx (ls.getLast hne)).Perm (ls.getLast hne) ∧
    (m.applyUpdate
        (WorkspaceUpdate.WorkspaceChanged (ls.getLast hne))).applyUpdate
        (WorkspaceUpdate.WorkspaceChanged (ls.getLast hne))
      = m.applyUpdate (WorkspaceUpdate.WorkspaceChanged (ls.getLast hne)) :=
  ⟨workerUpdates_map_wc ls, foldl_wc ls hne m,
   List.sorted_insertionSort byIdx _, List.perm_insertionSort byIdx _, rfl⟩

/-- Witness for the amended C2 theorem on a concrete one-event run whose
list arrives unsorted. -/
theorem workspacesChanged_replaces_and_sorts_witness :
    ([[wsIdx1, wsIdx0]] : List (List Workspace)) ≠ [] ∧
    (workerUpdates ([[wsIdx1, wsIdx0]].map Event.WorkspacesChanged)
        = [[wsIdx1, wsIdx0]].map WorkspaceUpdate.WorkspaceChanged ∧
    (([[wsIdx1, wsIdx0]].map WorkspaceUpdate.WorkspaceChanged).foldl
        NiriWorkspaceApplet.applyUpdate mW).workspaces
      = sortByIdx ([[wsIdx1, wsIdx0]].getLast (by decide)) ∧
    List.Sorted byIdx (sortByIdx ([[wsIdx1, wsIdx0]].getLast (by decide))) ∧
    (sortByIdx ([[wsIdx1, wsIdx0]].getLast (by decide))).Perm
      ([[wsIdx1, wsIdx0]].getLast (by decide)) ∧
    (mW.applyUpdate (WorkspaceUpdate.WorkspaceChanged
        ([[wsIdx1, wsIdx0]].getLast (by decide)))).applyUpdate
        (WorkspaceUpdate.WorkspaceChanged
          ([[wsIdx1, wsIdx0]].getLast (by decide)))
      = mW.applyUpdate (WorkspaceUpdate.WorkspaceChanged
          ([[wsIdx1, wsIdx0]].getLast (by decide)))) :=
  ⟨by decide, workspacesChanged_replaces_and_sorts mW [[wsIdx1, wsIdx0]]
    (by decide)⟩

/-- C8: the updates for a concatenation of event runs are the
concatenation of the updates of each run in order (the FIFO delivery
channel is embedded as the list of sends in order), and draining the
updates into the model equals applying each event to the snapshot before
the next event is processed. -/
theorem worker_order_preserved (es₁ es₂ : List Event)
    (m : NiriWorkspaceApplet) :
    workerUpdates (es₁ ++ es₂) = workerUpdates es₁ ++ workerUpdates es₂ ∧
    (workerUpdates es₁).foldl NiriWorkspaceApplet.applyUpdate m
      = es₁.foldl stepEvent m := by
  refine ⟨List.filterMap_append es₁ es₂ workerStep, ?_⟩
  induction es₁ generalizing m with
  | nil => rfl
  | cons e t ih =>
    cases e with
    | WorkspacesChanged ws =>
      exact ih (m.applyUpdate (WorkspaceUpdate.WorkspaceChanged ws))
    | WorkspaceActivated id focused =>
      cases focused with
      | true => exact ih (m.applyUpdate (WorkspaceUpdate.FocusChanged id))
      | false => exact ih m
    | other tag => exact ih m

end Niri
